import Mathlib

/-!
# gdk/gdklcmscolorspace.c

A shallow embedding of the LCMS colour-space adapter of GDK and the properties of it
that the specification states.

The adapter is glue around two collaborators whose code is not part of the sources:
the colour-management library (lcms2) and GLib/GObject.  Both are taken as parameters
(`Env`): every library function is a transition on an abstract library state `σ`, so
the library may answer differently on every call.  The adapter's own code is embedded
by explicit state passing over a `World`:

* pointers are natural numbers, `0` is `NULL`;
* GObject instances live in `World.heap`, the instance at address `p` is `heap[p - 1]`;
* every call into the colour-management library, and every `g_object_new`, is appended
  to `World.calls`, so that statements about which calls are made, how often and in
  which order are statements about that list;
* code whose behaviour C leaves undefined (a vfunc called on a pointer that is not an
  instance of the class) and a failed `g_assert` end in `Except.error`.
-/

namespace Gdk

/-! ## Types of the collaborators -/

/-- An lcms profile handle, `0` is `NULL`. -/
abbrev cmsHPROFILE := Nat

/-- A pointer to an lcms tone curve, `0` is `NULL`. -/
abbrev cmsToneCurve := Nat

/-- An lcms context, `0` is `NULL` (the global context). -/
abbrev cmsContext := Nat

/-- A `double` argument.  The adapter only passes literals through, never computes
with them; a literal is represented by the decimal number it denotes. -/
abbrev cmsFloat64Number := ℚ

/-- An ICC colour-space signature (a four-character code). -/
abbrev cmsColorSpaceSignature := Nat

/-- The enumeration of memory formats; the adapter never inspects it. -/
abbrev GdkMemoryFormat := Nat

/-- Modelled from the spec: the colour-space signature "RGB" of the colour-management
library, whose header is not among the sources; the value is the ICC code `'RGB '`. -/
def cmsSigRgbData : cmsColorSpaceSignature := 0x52474220

/-- Modelled from the spec: the colour-space signature "gray" of the colour-management
library, whose header is not among the sources; the value is the ICC code `'GRAY'`. -/
def cmsSigGrayData : cmsColorSpaceSignature := 0x47524159

/-- Modelled from the spec: the colour-space signature "CMYK" of the colour-management
library, whose header is not among the sources; the value is the ICC code `'CMYK'`. -/
def cmsSigCmykData : cmsColorSpaceSignature := 0x434D594B

/-- A chromaticity with luminance, passed by value. -/
structure cmsCIExyY where
  x : cmsFloat64Number
  y : cmsFloat64Number
  Y : cmsFloat64Number
deriving DecidableEq

/-- The three primaries. -/
structure cmsCIExyYTRIPLE where
  Red : cmsCIExyY
  Green : cmsCIExyY
  Blue : cmsCIExyY
deriving DecidableEq

/-- What `cmsSaveProfileToMem (h, MemPtr, &BytesNeeded)` leaves behind: its boolean
result, the contents of the destination block (only meaningful when `MemPtr` is not
`NULL`) and the value it stored in `*BytesNeeded`. -/
structure SaveResult where
  ok : Bool
  mem : List Nat
  BytesNeeded : Nat
deriving DecidableEq

/-- A `GError`. -/
structure GError where
  domain : String
  code : Int
  message : String
deriving DecidableEq

/-- The error domain of GIO. -/
def G_IO_ERROR : String := "g-io-error-quark"

/-- The generic failure code of `GIOErrorEnum`. -/
def G_IO_ERROR_FAILED : Int := 0

/-- A `GBytes`: the pointer it holds (`none` is `NULL`, `some m` a block with contents
`m`) and the size it records. -/
structure GBytes where
  data : Option (List Nat)
  size : Nat
deriving DecidableEq

/-- A call observed at the boundary of the adapter. -/
inductive Call where
  | cmsOpenProfileFromMem (MemPtr : Option (List Nat)) (dwSize : Nat)
  | cmsCloseProfile (hProfile : cmsHPROFILE)
  | cmsGetColorSpace (hProfile : cmsHPROFILE)
  | cmsSaveProfileToMem (hProfile : cmsHPROFILE) (MemPtr : Option Nat) (BytesNeeded : Nat)
  | cmsCreate_sRGBProfile
  | cmsBuildGamma (ContextID : cmsContext) (Gamma : cmsFloat64Number)
  | cmsCreateRGBProfile (WhitePoint : cmsCIExyY) (Primaries : cmsCIExyYTRIPLE)
      (TransferFunction : List cmsToneCurve)
  | cmsFreeToneCurve (Curve : cmsToneCurve)
  | g_object_new
deriving DecidableEq

/-- The collaborators of the adapter: the colour-management library as transitions on
its state `σ`, message translation, and the parent class `GdkColorSpace`, whose
instance part has type `π`. -/
structure Env (σ π : Type) where
  cmsOpenProfileFromMem : σ → Option (List Nat) → Nat → cmsHPROFILE × σ
  cmsCloseProfile : σ → cmsHPROFILE → Bool × σ
  cmsGetColorSpace : σ → cmsHPROFILE → cmsColorSpaceSignature × σ
  cmsSaveProfileToMem : σ → cmsHPROFILE → Option Nat → Nat → SaveResult × σ
  cmsCreate_sRGBProfile : σ → cmsHPROFILE × σ
  cmsBuildGamma : σ → cmsContext → cmsFloat64Number → cmsToneCurve × σ
  cmsCreateRGBProfile : σ → cmsCIExyY → cmsCIExyYTRIPLE → List cmsToneCurve → cmsHPROFILE × σ
  cmsFreeToneCurve : σ → cmsToneCurve → σ
  gettext : String → String
  parent_init : π
  parent_dispose : π → π

/-! ## The data model -/

/-- The instance structure `struct _GdkLcmsColorSpace`. -/
structure GdkLcmsColorSpace (π : Type) where
  parent_instance : π
  lcms_profile : cmsHPROFILE
deriving DecidableEq

/-- A GObject instance on the heap: one of this class, or one of another colour-space
class, which has no `lcms_profile` field. -/
inductive Instance (π : Type) where
  | lcms (self : GdkLcmsColorSpace π)
  | other (parent_instance : π)
deriving DecidableEq

/-- Why a run stops without returning. -/
inductive Fault where
  | assertion_failed
  | invalid_instance
deriving DecidableEq

/-- The process state. -/
structure World (σ π : Type) where
  lcms : σ
  calls : List Call
  heap : List (Instance π)
  srgb_color_space : Nat
  srgb_linear_color_space : Nat
  criticals : Nat
  warnings : Nat
deriving DecidableEq

set_option linter.unusedVariables false

variable {σ π : Type}

/-- The process state before anything ran: both function-local statics are zero. -/
def World.init (s : σ) : World σ π :=
  { lcms := s, calls := [], heap := [], srgb_color_space := 0,
    srgb_linear_color_space := 0, criticals := 0, warnings := 0 }

/-- The instance a pointer refers to. -/
def World.deref (w : World σ π) (p : Nat) : Option (Instance π) :=
  if p = 0 then none else w.heap.get? (p - 1)

/-- The type check `GDK_IS_LCMS_COLOR_SPACE (p)`. -/
def GDK_IS_LCMS_COLOR_SPACE (w : World σ π) (p : Nat) : Bool :=
  match w.deref p with
  | some (Instance.lcms _) => true
  | _ => false

/-- The cast `GDK_LCMS_COLOR_SPACE (p)` followed by a field access: the instance
structure behind `p`; undefined when `p` is not an instance of the class. -/
def GDK_LCMS_COLOR_SPACE (w : World σ π) (p : Nat) : Except Fault (GdkLcmsColorSpace π) :=
  match w.deref p with
  | some (Instance.lcms self) => Except.ok self
  | _ => Except.error Fault.invalid_instance

/-- The assignment `GDK_LCMS_COLOR_SPACE (p)->lcms_profile = h`. -/
def World.set_lcms_profile (w : World σ π) (p : Nat) (h : cmsHPROFILE) : World σ π :=
  match w.deref p with
  | some (Instance.lcms self) =>
      { w with heap := w.heap.set (p - 1) (Instance.lcms { self with lcms_profile := h }) }
  | _ => w

/-- The update of the parent part of the instance at `p`. -/
def World.set_parent_instance (w : World σ π) (p : Nat) (q : π) : World σ π :=
  match w.deref p with
  | some (Instance.lcms self) =>
      { w with heap := w.heap.set (p - 1) (Instance.lcms { self with parent_instance := q }) }
  | _ => w

/-! ## GLib -/

/-- `g_object_new (GDK_TYPE_LCMS_COLOR_SPACE, NULL)`: a fresh zero-filled instance on
which the parent class's and then this class's (empty) instance initialisers ran. -/
def g_object_new (E : Env σ π) (w : World σ π) : Nat × World σ π :=
  (w.heap.length + 1,
   { w with heap := w.heap ++ [Instance.lcms { parent_instance := E.parent_init, lcms_profile := 0 }],
            calls := w.calls ++ [Call.g_object_new] })

/-- `g_set_error (error, domain, code, message)` on the caller's error location:
`none` is a `NULL` location, `some none` a location holding no error.  Returns the
location's new content and whether GLib warned about an overwritten error. -/
def g_set_error (error : Option (Option GError)) (e : GError) : Option (Option GError) × Bool :=
  match error with
  | none => (none, false)
  | some none => (some (some e), false)
  | some (some old) => (some (some old), true)

/-- `g_malloc (n)`: `NULL` for zero bytes, else a block of `n` bytes. -/
def g_malloc (n : Nat) : Option Nat :=
  if n = 0 then none else some n

/-- `g_bytes_new_take (data, size)`. -/
def g_bytes_new_take (data : Option (List Nat)) (size : Nat) : GBytes :=
  { data := data, size := size }

/-- `g_once_init_enter (&location)`, single-threaded: initialisation is due exactly
when the location is still zero. -/
def g_once_init_enter (location : Nat) : Bool :=
  location == 0

/-- A `g_return_val_if_fail` whose check failed: GLib logs a critical message. -/
def World.critical (w : World σ π) : World σ π :=
  { w with criticals := w.criticals + 1 }

/-- The warning GLib logs when `g_set_error` finds the location occupied. -/
def World.warn (w : World σ π) (warned : Bool) : World σ π :=
  if warned then { w with warnings := w.warnings + 1 } else w

/-! ## Calls into the colour-management library

Each one runs the library's transition and records the call. -/

def World.cmsOpenProfileFromMem (w : World σ π) (E : Env σ π) (MemPtr : Option (List Nat))
    (dwSize : Nat) : cmsHPROFILE × World σ π :=
  ((E.cmsOpenProfileFromMem w.lcms MemPtr dwSize).1,
   { w with lcms := (E.cmsOpenProfileFromMem w.lcms MemPtr dwSize).2,
            calls := w.calls ++ [Call.cmsOpenProfileFromMem MemPtr dwSize] })

def World.cmsCloseProfile (w : World σ π) (E : Env σ π) (hProfile : cmsHPROFILE) :
    Bool × World σ π :=
  ((E.cmsCloseProfile w.lcms hProfile).1,
   { w with lcms := (E.cmsCloseProfile w.lcms hProfile).2,
            calls := w.calls ++ [Call.cmsCloseProfile hProfile] })

def World.cmsGetColorSpace (w : World σ π) (E : Env σ π) (hProfile : cmsHPROFILE) :
    cmsColorSpaceSignature × World σ π :=
  ((E.cmsGetColorSpace w.lcms hProfile).1,
   { w with lcms := (E.cmsGetColorSpace w.lcms hProfile).2,
            calls := w.calls ++ [Call.cmsGetColorSpace hProfile] })

def World.cmsSaveProfileToMem (w : World σ π) (E : Env σ π) (hProfile : cmsHPROFILE)
    (MemPtr : Option Nat) (BytesNeeded : Nat) : SaveResult × World σ π :=
  ((E.cmsSaveProfileToMem w.lcms hProfile MemPtr BytesNeeded).1,
   { w with lcms := (E.cmsSaveProfileToMem w.lcms hProfile MemPtr BytesNeeded).2,
            calls := w.calls ++ [Call.cmsSaveProfileToMem hProfile MemPtr BytesNeeded] })

def World.cmsCreate_sRGBProfile (w : World σ π) (E : Env σ π) : cmsHPROFILE × World σ π :=
  ((E.cmsCreate_sRGBProfile w.lcms).1,
   { w with lcms := (E.cmsCreate_sRGBProfile w.lcms).2,
            calls := w.calls ++ [Call.cmsCreate_sRGBProfile] })

def World.cmsBuildGamma (w : World σ π) (E : Env σ π) (ContextID : cmsContext)
    (Gamma : cmsFloat64Number) : cmsToneCurve × World σ π :=
  ((E.cmsBuildGamma w.lcms ContextID Gamma).1,
   { w with lcms := (E.cmsBuildGamma w.lcms ContextID Gamma).2,
            calls := w.calls ++ [Call.cmsBuildGamma ContextID Gamma] })

def World.cmsCreateRGBProfile (w : World σ π) (E : Env σ π) (WhitePoint : cmsCIExyY)
    (Primaries : cmsCIExyYTRIPLE) (TransferFunction : List cmsToneCurve) :
    cmsHPROFILE × World σ π :=
  ((E.cmsCreateRGBProfile w.lcms WhitePoint Primaries TransferFunction).1,
   { w with lcms := (E.cmsCreateRGBProfile w.lcms WhitePoint Primaries TransferFunction).2,
            calls := w.calls ++ [Call.cmsCreateRGBProfile WhitePoint Primaries TransferFunction] })

def World.cmsFreeToneCurve (w : World σ π) (E : Env σ π) (Curve : cmsToneCurve) : World σ π :=
  { w with lcms := E.cmsFreeToneCurve w.lcms Curve,
           calls := w.calls ++ [Call.cmsFreeToneCurve Curve] }

/-! ## The adapter -/

/-- The vfunc `supports_format`. -/
def gdk_lcms_color_space_supports_format (E : Env σ π) (w : World σ π) (space : Nat)
    (format : GdkMemoryFormat) : Except Fault (Bool × World σ π) :=
  match GDK_LCMS_COLOR_SPACE w space with
  | Except.error f => Except.error f
  | Except.ok self =>
      Except.ok ((w.cmsGetColorSpace E self.lcms_profile).1 == cmsSigRgbData,
                 (w.cmsGetColorSpace E self.lcms_profile).2)

/-- The vfunc `save_to_icc_profile`.  Returns the `GBytes` (`none` is `NULL`) and the
new content of the caller's error location. -/
def gdk_lcms_color_space_save_to_icc_profile (E : Env σ π) (w : World σ π) (space : Nat)
    (error : Option (Option GError)) :
    Except Fault (Option GBytes × Option (Option GError) × World σ π) :=
  match GDK_LCMS_COLOR_SPACE w space with
  | Except.error f => Except.error f
  | Except.ok self =>
      let size := 0
      let q := w.cmsSaveProfileToMem E self.lcms_profile none size
      if q.1.ok = false then
        let e := g_set_error error
          { domain := G_IO_ERROR, code := G_IO_ERROR_FAILED,
            message := E.gettext "Could not prepare ICC profile" }
        Except.ok (none, e.1, q.2.warn e.2)
      else
        let size := q.1.BytesNeeded
        let data := g_malloc size
        let r := q.2.cmsSaveProfileToMem E self.lcms_profile data size
        if r.1.ok = false then
          -- g_free (data): the block is not used again
          let e := g_set_error error
            { domain := G_IO_ERROR, code := G_IO_ERROR_FAILED,
              message := E.gettext "Failed to save ICC profile" }
          Except.ok (none, e.1, r.2.warn e.2)
        else
          Except.ok (some (g_bytes_new_take (data.map (fun _ => r.1.mem)) r.1.BytesNeeded),
                     error, r.2)

/-- The vfunc `get_n_components`. -/
def gdk_lcms_color_space_get_n_components (w : World σ π) (space : Nat) : Int × World σ π :=
  (3, w)

/-- The statement `g_clear_pointer (&self->lcms_profile, cmsCloseProfile)`: when the
field is not `NULL` it is set to `NULL` and then the old value is closed. -/
def g_clear_pointer_lcms_profile (E : Env σ π) (w : World σ π) (object : Nat)
    (self : GdkLcmsColorSpace π) : World σ π :=
  if self.lcms_profile = 0 then w
  else ((w.set_lcms_profile object 0).cmsCloseProfile E self.lcms_profile).2

/-- The chained call `G_OBJECT_CLASS (gdk_lcms_color_space_parent_class)->dispose (object)`:
the parent class disposes of its own part of the instance. -/
def parent_class_dispose (E : Env σ π) (w : World σ π) (object : Nat) : World σ π :=
  match w.deref object with
  | some (Instance.lcms self) =>
      w.set_parent_instance object (E.parent_dispose self.parent_instance)
  | _ => w

/-- The vfunc `dispose`. -/
def gdk_lcms_color_space_dispose (E : Env σ π) (w : World σ π) (object : Nat) :
    Except Fault (World σ π) :=
  match GDK_LCMS_COLOR_SPACE w object with
  | Except.error f => Except.error f
  | Except.ok self =>
      Except.ok (parent_class_dispose E (g_clear_pointer_lcms_profile E w object self) object)

/-- The constructor from a handle. -/
def gdk_lcms_color_space_new_from_lcms_profile (E : Env σ π) (w : World σ π)
    (lcms_profile : cmsHPROFILE) : Nat × World σ π :=
  ((g_object_new E w).1, (g_object_new E w).2.set_lcms_profile (g_object_new E w).1 lcms_profile)

/-- The accessor of the handle. -/
def gdk_lcms_color_space_get_lcms_profile (w : World σ π) (self : Nat) :
    cmsHPROFILE × World σ π :=
  match w.deref self with
  | some (Instance.lcms s) => (s.lcms_profile, w)
  | _ => (0, w.critical)

/-- The sRGB singleton. -/
def gdk_color_space_get_srgb (E : Env σ π) (w : World σ π) : Except Fault (Nat × World σ π) :=
  if g_once_init_enter w.srgb_color_space then
    let p := w.cmsCreate_sRGBProfile E
    let n := gdk_lcms_color_space_new_from_lcms_profile E p.2 p.1
    let color_space := n.1
    if color_space = 0 then Except.error Fault.assertion_failed
    else
      -- g_once_init_leave (&srgb_color_space, color_space)
      Except.ok (color_space, { n.2 with srgb_color_space := color_space })
  else Except.ok (w.srgb_color_space, w)

/-- The linear sRGB singleton. -/
def gdk_color_space_get_srgb_linear (E : Env σ π) (w : World σ π) :
    Except Fault (Nat × World σ π) :=
  if g_once_init_enter w.srgb_linear_color_space then
    let c := w.cmsBuildGamma E 0 1.0
    let curve := c.1
    let p := c.2.cmsCreateRGBProfile E
      { x := 0.3127, y := 0.3290, Y := 1.0 }
      { Red := { x := 0.6400, y := 0.3300, Y := 1.0 },
        Green := { x := 0.3000, y := 0.6000, Y := 1.0 },
        Blue := { x := 0.1500, y := 0.0600, Y := 1.0 } }
      [curve, curve, curve]
    let lcms_profile := p.1
    let f := p.2.cmsFreeToneCurve E curve
    let n := gdk_lcms_color_space_new_from_lcms_profile E f lcms_profile
    let color_space := n.1
    if color_space = 0 then Except.error Fault.assertion_failed
    else
      -- g_once_init_leave (&srgb_linear_color_space, color_space)
      Except.ok (color_space, { n.2 with srgb_linear_color_space := color_space })
  else Except.ok (w.srgb_linear_color_space, w)

/-! ## Sequences of accessor calls -/

/-- The two singleton accessors. -/
inductive Accessor where
  | srgb
  | srgb_linear
deriving DecidableEq

/-- One call of an accessor. -/
def Accessor.call (E : Env σ π) (w : World σ π) : Accessor → Except Fault (Nat × World σ π)
  | Accessor.srgb => gdk_color_space_get_srgb E w
  | Accessor.srgb_linear => gdk_color_space_get_srgb_linear E w

/-- A caller that invokes the accessors one after the other and collects what they
return. -/
def Accessor.run (E : Env σ π) (w : World σ π) : List Accessor → Except Fault (List Nat × World σ π)
  | [] => Except.ok ([], w)
  | a :: rest =>
      match a.call E w with
      | Except.error f => Except.error f
      | Except.ok r =>
          match Accessor.run E r.2 rest with
          | Except.error f => Except.error f
          | Except.ok q => Except.ok (r.1 :: q.1, q.2)

/-- The cache (function-local static) an accessor returns from. -/
def Accessor.cache (w : World σ π) : Accessor → Nat
  | Accessor.srgb => w.srgb_color_space
  | Accessor.srgb_linear => w.srgb_linear_color_space

/-- Whether a recorded call is a `cmsCreateRGBProfile`. -/
def Call.is_cmsCreateRGBProfile : Call → Bool
  | Call.cmsCreateRGBProfile _ _ _ => true
  | _ => false

/-- Whether a recorded call is a `cmsCloseProfile`. -/
def Call.is_cmsCloseProfile : Call → Bool
  | Call.cmsCloseProfile _ => true
  | _ => false

/-- What holds of the two caches between accessor calls: a cache that is set points to
a live LCMS colour space, the two caches never point to the same instance, each
builder has run once if its cache is set and not at all otherwise, and no profile was
closed. -/
def CacheInv (w : World σ π) : Prop :=
  (w.srgb_color_space ≠ 0 → GDK_IS_LCMS_COLOR_SPACE w w.srgb_color_space = true) ∧
  (w.srgb_linear_color_space ≠ 0 →
    GDK_IS_LCMS_COLOR_SPACE w w.srgb_linear_color_space = true) ∧
  (w.srgb_color_space ≠ 0 → w.srgb_color_space ≠ w.srgb_linear_color_space) ∧
  w.calls.count Call.cmsCreate_sRGBProfile = (if w.srgb_color_space = 0 then 0 else 1) ∧
  w.calls.countP Call.is_cmsCreateRGBProfile =
    (if w.srgb_linear_color_space = 0 then 0 else 1) ∧
  w.calls.countP Call.is_cmsCloseProfile = 0

/-! ## Concrete collaborators and states

Used to evaluate the adapter on explicit inputs. -/

namespace Example

/-- A library that works: it numbers the handles and curves it hands out (its state is
the last number used), rejects an empty buffer, reports every profile as RGB and
serialises every profile to the three bytes `[1, 2, 3]`. -/
def lcms_ok : Env Nat Nat :=
  { cmsOpenProfileFromMem := fun s _ n => if n = 0 then (0, s) else (s + 1, s + 1)
    cmsCloseProfile := fun s _ => (true, s)
    cmsGetColorSpace := fun s _ => (cmsSigRgbData, s)
    cmsSaveProfileToMem := fun s _ _ _ => ({ ok := true, mem := [1, 2, 3], BytesNeeded := 3 }, s)
    cmsCreate_sRGBProfile := fun s => (s + 1, s + 1)
    cmsBuildGamma := fun s _ _ => (s + 1, s + 1)
    cmsCreateRGBProfile := fun s _ _ _ => (s + 1, s + 1)
    cmsFreeToneCurve := fun s _ => s
    gettext := fun m => m
    parent_init := 0
    parent_dispose := fun _ => 1 }

/-- The same library, out of resources: neither profile builder returns a profile. -/
def lcms_no_builtin : Env Nat Nat :=
  { lcms_ok with
    cmsCreate_sRGBProfile := fun s => (0, s)
    cmsCreateRGBProfile := fun s _ _ _ => (0, s) }

/-- A state with an LCMS colour space holding handle `7` at address `1`, a colour
space of another class at address `2` and an LCMS colour space without a handle at
address `3`. -/
def world : World Nat Nat :=
  { lcms := 7, calls := [],
    heap := [Instance.lcms { parent_instance := 0, lcms_profile := 7 }, Instance.other 0,
             Instance.lcms { parent_instance := 0, lcms_profile := 0 }],
    srgb_color_space := 0, srgb_linear_color_space := 0, criticals := 0, warnings := 0 }

end Example

/-! ## Basic facts about the heap -/

theorem deref_eq_get (w : World σ π) (p : Nat) (hp : p ≠ 0) :
    w.deref p = w.heap.get? (p - 1) := by
  simp [World.deref, hp]

theorem deref_lt (w : World σ π) (p : Nat) (i : Instance π) (h : w.deref p = some i) :
    p ≠ 0 ∧ p - 1 < w.heap.length := by
  unfold World.deref at h
  by_cases hp : p = 0
  · simp [hp] at h
  · simp only [hp, if_false] at h
    refine ⟨hp, ?_⟩
    by_contra hlt
    have hnone : w.heap.get? (p - 1) = none := List.get?_eq_none.mpr (Nat.le_of_not_lt hlt)
    rw [hnone] at h
    exact Option.noConfusion h

/-- The constructor allocates the next address and stores the handle there; nothing
else on the heap changes and the only call recorded is the allocation. -/
theorem new_from_lcms_profile_eq (E : Env σ π) (w : World σ π) (h : cmsHPROFILE) :
    gdk_lcms_color_space_new_from_lcms_profile E w h =
      (w.heap.length + 1,
       { w with
         heap := w.heap ++ [Instance.lcms { parent_instance := E.parent_init, lcms_profile := h }],
         calls := w.calls ++ [Call.g_object_new] }) := by
  simp [gdk_lcms_color_space_new_from_lcms_profile, g_object_new, World.set_lcms_profile,
    World.deref]

theorem deref_of_heap_set (w w1 : World σ π) (p : Nat) (i x : Instance π)
    (h : w.deref p = some i) (hh : w1.heap = w.heap.set (p - 1) x) : w1.deref p = some x := by
  obtain ⟨hp, hlt⟩ := deref_lt w p i h
  rw [deref_eq_get _ _ hp, hh]
  simp [List.getElem?_set, hlt]

/-- What `dispose` does to a state in which `object` is an LCMS colour space: the
handle, if there is one, is closed, the field is cleared and the parent class disposes
of its part. -/
theorem dispose_eq (E : Env σ π) (w : World σ π) (object : Nat) (self : GdkLcmsColorSpace π)
    (hself : w.deref object = some (Instance.lcms self)) :
    gdk_lcms_color_space_dispose E w object = Except.ok
      { w with
        lcms := if self.lcms_profile = 0 then w.lcms
                else (E.cmsCloseProfile w.lcms self.lcms_profile).2,
        calls := if self.lcms_profile = 0 then w.calls
                 else w.calls ++ [Call.cmsCloseProfile self.lcms_profile],
        heap := w.heap.set (object - 1)
          (Instance.lcms { parent_instance := E.parent_dispose self.parent_instance,
                           lcms_profile := 0 }) } := by
  have hcast : GDK_LCMS_COLOR_SPACE w object = Except.ok self := by
    simp [GDK_LCMS_COLOR_SPACE, hself]
  unfold gdk_lcms_color_space_dispose
  rw [hcast]
  by_cases h0 : self.lcms_profile = 0
  · simp only [g_clear_pointer_lcms_profile, h0, if_true, parent_class_dispose, hself,
      World.set_parent_instance]
  · have h1 : World.deref ((w.set_lcms_profile object 0).cmsCloseProfile E self.lcms_profile).2
        object = some (Instance.lcms { parent_instance := self.parent_instance,
                                       lcms_profile := 0 }) := by
      apply deref_of_heap_set w _ object _ _ hself
      simp [World.cmsCloseProfile, World.set_lcms_profile, hself]
    simp only [g_clear_pointer_lcms_profile, h0, if_false, parent_class_dispose, h1,
      World.set_parent_instance]
    simp [World.cmsCloseProfile, World.set_lcms_profile, hself, List.set_set]

/-! ## The singleton accessors, one call -/

theorem get_srgb_first (E : Env σ π) (w : World σ π) (h : w.srgb_color_space = 0) :
    gdk_color_space_get_srgb E w = Except.ok
      (w.heap.length + 1,
       { w with
         lcms := (E.cmsCreate_sRGBProfile w.lcms).2,
         calls := w.calls ++ [Call.cmsCreate_sRGBProfile, Call.g_object_new],
         heap := w.heap ++ [Instance.lcms { parent_instance := E.parent_init,
                                            lcms_profile := (E.cmsCreate_sRGBProfile w.lcms).1 }],
         srgb_color_space := w.heap.length + 1 }) := by
  simp [gdk_color_space_get_srgb, g_once_init_enter, h, new_from_lcms_profile_eq,
    World.cmsCreate_sRGBProfile]

theorem get_srgb_cached (E : Env σ π) (w : World σ π) (h : w.srgb_color_space ≠ 0) :
    gdk_color_space_get_srgb E w = Except.ok (w.srgb_color_space, w) := by
  simp [gdk_color_space_get_srgb, g_once_init_enter, h]

theorem get_srgb_linear_first (E : Env σ π) (w : World σ π)
    (h : w.srgb_linear_color_space = 0) :
    gdk_color_space_get_srgb_linear E w = Except.ok
      (w.heap.length + 1,
       { w with
         lcms := E.cmsFreeToneCurve
           (E.cmsCreateRGBProfile (E.cmsBuildGamma w.lcms 0 1.0).2
             { x := 0.3127, y := 0.3290, Y := 1.0 }
             { Red := { x := 0.6400, y := 0.3300, Y := 1.0 },
               Green := { x := 0.3000, y := 0.6000, Y := 1.0 },
               Blue := { x := 0.1500, y := 0.0600, Y := 1.0 } }
             [(E.cmsBuildGamma w.lcms 0 1.0).1, (E.cmsBuildGamma w.lcms 0 1.0).1,
              (E.cmsBuildGamma w.lcms 0 1.0).1]).2
           (E.cmsBuildGamma w.lcms 0 1.0).1,
         calls := w.calls ++
           [Call.cmsBuildGamma 0 1.0,
            Call.cmsCreateRGBProfile
              { x := 0.3127, y := 0.3290, Y := 1.0 }
              { Red := { x := 0.6400, y := 0.3300, Y := 1.0 },
                Green := { x := 0.3000, y := 0.6000, Y := 1.0 },
                Blue := { x := 0.1500, y := 0.0600, Y := 1.0 } }
              [(E.cmsBuildGamma w.lcms 0 1.0).1, (E.cmsBuildGamma w.lcms 0 1.0).1,
               (E.cmsBuildGamma w.lcms 0 1.0).1],
            Call.cmsFreeToneCurve (E.cmsBuildGamma w.lcms 0 1.0).1,
            Call.g_object_new],
         heap := w.heap ++ [Instance.lcms
           { parent_instance := E.parent_init,
             lcms_profile :=
               (E.cmsCreateRGBProfile (E.cmsBuildGamma w.lcms 0 1.0).2
                 { x := 0.3127, y := 0.3290, Y := 1.0 }
                 { Red := { x := 0.6400, y := 0.3300, Y := 1.0 },
                   Green := { x := 0.3000, y := 0.6000, Y := 1.0 },
                   Blue := { x := 0.1500, y := 0.0600, Y := 1.0 } }
                 [(E.cmsBuildGamma w.lcms 0 1.0).1, (E.cmsBuildGamma w.lcms 0 1.0).1,
                  (E.cmsBuildGamma w.lcms 0 1.0).1]).1 }],
         srgb_linear_color_space := w.heap.length + 1 }) := by
  simp only [gdk_color_space_get_srgb_linear, g_once_init_enter, h, new_from_lcms_profile_eq,
    World.cmsBuildGamma, World.cmsCreateRGBProfile, World.cmsFreeToneCurve]
  simp

theorem get_srgb_linear_cached (E : Env σ π) (w : World σ π)
    (h : w.srgb_linear_color_space ≠ 0) :
    gdk_color_space_get_srgb_linear E w = Except.ok (w.srgb_linear_color_space, w) := by
  simp [gdk_color_space_get_srgb_linear, g_once_init_enter, h]

theorem is_lcms_le (w : World σ π) (p : Nat) (h : GDK_IS_LCMS_COLOR_SPACE w p = true) :
    p ≠ 0 ∧ p ≤ w.heap.length := by
  unfold GDK_IS_LCMS_COLOR_SPACE at h
  cases hd : w.deref p with
  | none => simp [hd] at h
  | some i =>
      obtain ⟨hp, hlt⟩ := deref_lt w p i hd
      exact ⟨hp, by omega⟩

theorem is_lcms_append (w w1 : World σ π) (i : Instance π) (p : Nat)
    (hh : w1.heap = w.heap ++ [i]) (h : GDK_IS_LCMS_COLOR_SPACE w p = true) :
    GDK_IS_LCMS_COLOR_SPACE w1 p = true := by
  unfold GDK_IS_LCMS_COLOR_SPACE at h ⊢
  cases hd : w.deref p with
  | none => simp [hd] at h
  | some j =>
      obtain ⟨hp, hlt⟩ := deref_lt w p j hd
      have : w1.deref p = some j := by
        rw [deref_eq_get _ _ hp] at hd ⊢
        rw [hh]
        simp only [List.get?_eq_getElem?] at hd ⊢
        rw [List.getElem?_append_left hlt]
        exact hd
      rw [this]
      rw [hd] at h
      exact h

theorem is_lcms_fresh (w w1 : World σ π) (s : GdkLcmsColorSpace π)
    (hh : w1.heap = w.heap ++ [Instance.lcms s]) :
    GDK_IS_LCMS_COLOR_SPACE w1 (w.heap.length + 1) = true := by
  simp [GDK_IS_LCMS_COLOR_SPACE, World.deref, hh]

/-- One accessor call from a state satisfying the cache invariant returns a non-null
pointer, which is then the content of the accessor's cache; the invariant holds
afterwards and a cache that was set keeps its content. -/
theorem call_preserves (E : Env σ π) (w : World σ π) (a : Accessor) (hinv : CacheInv w) :
    ∃ p w1, a.call E w = Except.ok (p, w1) ∧ CacheInv w1 ∧ p ≠ 0 ∧
      (a = Accessor.srgb → w1.srgb_color_space = p) ∧
      (a = Accessor.srgb_linear → w1.srgb_linear_color_space = p) ∧
      (w.srgb_color_space ≠ 0 → w1.srgb_color_space = w.srgb_color_space) ∧
      (w.srgb_linear_color_space ≠ 0 →
        w1.srgb_linear_color_space = w.srgb_linear_color_space) ∧
      (a = Accessor.srgb → w1.srgb_linear_color_space = w.srgb_linear_color_space) ∧
      (a = Accessor.srgb_linear → w1.srgb_color_space = w.srgb_color_space) := by
  obtain ⟨hs, hl, hne, hcs, hcl, hcc⟩ := hinv
  cases a with
  | srgb =>
      by_cases h0 : w.srgb_color_space = 0
      · refine ⟨_, _, get_srgb_first E w h0, ?_, by simp, by simp, by simp, by simp [h0],
          by simp, by simp, by simp⟩
        refine ⟨fun _ => is_lcms_fresh w _ _ rfl, ?_, ?_, ?_, ?_, ?_⟩
        · intro hl0
          exact is_lcms_append w _ _ _ rfl (hl hl0)
        · intro _ heq
          by_cases hl0 : w.srgb_linear_color_space = 0
          · simp [hl0] at heq
          · have := (is_lcms_le w _ (hl hl0)).2
            simp at heq
            omega
        · simp [List.count_append, hcs, h0]
        · simp only [List.countP_append, hcl]
          simp [Call.is_cmsCreateRGBProfile]
        · simp only [List.countP_append, hcc]
          simp [Call.is_cmsCloseProfile]
      · exact ⟨_, _, get_srgb_cached E w h0, ⟨hs, hl, hne, hcs, hcl, hcc⟩, h0, fun _ => rfl,
          by simp, fun _ => rfl, fun _ => rfl, fun _ => rfl, fun _ => rfl⟩
  | srgb_linear =>
      by_cases h0 : w.srgb_linear_color_space = 0
      · refine ⟨_, _, get_srgb_linear_first E w h0, ?_, by simp, by simp, by simp, by simp,
          by simp [h0], by simp, by simp⟩
        refine ⟨?_, fun _ => is_lcms_fresh w _ _ rfl, ?_, ?_, ?_, ?_⟩
        · intro hs0
          exact is_lcms_append w _ _ _ rfl (hs hs0)
        · intro hs0 heq
          have := (is_lcms_le w _ (hs hs0)).2
          simp at heq
          omega
        · simp only [List.count_append, hcs]
          simp
        · simp only [List.countP_append, hcl, h0]
          simp [Call.is_cmsCreateRGBProfile]
        · simp only [List.countP_append, hcc]
          simp [Call.is_cmsCloseProfile]
      · exact ⟨_, _, get_srgb_linear_cached E w h0, ⟨hs, hl, hne, hcs, hcl, hcc⟩, h0, by simp,
          fun _ => rfl, fun _ => rfl, fun _ => rfl, fun _ => rfl, fun _ => rfl⟩

/-- A sequence of accessor calls from a state satisfying the cache invariant runs to
the end; every call returns what the accessor's cache holds at the end. -/
theorem run_preserves (E : Env σ π) (seq : List Accessor) :
    ∀ w : World σ π, CacheInv w →
      ∃ rs w1, Accessor.run E w seq = Except.ok (rs, w1) ∧ CacheInv w1 ∧
        rs = seq.map (Accessor.cache w1) ∧
        (∀ a ∈ seq, Accessor.cache w1 a ≠ 0) ∧
        (∀ a, Accessor.cache w a ≠ 0 → Accessor.cache w1 a = Accessor.cache w a) ∧
        (∀ a, a ∉ seq → Accessor.cache w1 a = Accessor.cache w a) := by
  induction seq with
  | nil =>
      intro w hinv
      exact ⟨[], w, rfl, hinv, rfl, by simp, fun _ _ => rfl, fun _ _ => rfl⟩
  | cons a rest ih =>
      intro w hinv
      obtain ⟨p, w1, hcall, hinv1, hp, hsa, hla, hsk, hlk, hls, hsl⟩ :=
        call_preserves E w a hinv
      obtain ⟨rs, w2, hrun, hinv2, hrs, hnz, hkeep, hout⟩ := ih w1 hinv1
      have hcache1 : Accessor.cache w1 a = p := by
        cases a with
        | srgb => exact hsa rfl
        | srgb_linear => exact hla rfl
      have hcache2 : Accessor.cache w2 a = p := by
        rw [hkeep a (by rw [hcache1]; exact hp), hcache1]
      refine ⟨p :: rs, w2, ?_, hinv2, ?_, ?_, ?_, ?_⟩
      · simp only [Accessor.run, hcall, hrun]
      · simp [hrs, hcache2]
      · intro b hb
        rcases List.mem_cons.mp hb with hba | hbr
        · rw [hba, hcache2]; exact hp
        · exact hnz b hbr
      · intro b hb
        have h1 : Accessor.cache w1 b = Accessor.cache w b := by
          cases b with
          | srgb => exact hsk hb
          | srgb_linear => exact hlk hb
        rw [hkeep b (by rw [h1]; exact hb), h1]
      · intro b hb
        have hba : b ≠ a := fun h => hb (by rw [h]; exact List.mem_cons_self _ _)
        have hbr : b ∉ rest := fun h => hb (List.mem_cons_of_mem _ h)
        rw [hout b hbr]
        cases b with
        | srgb =>
            cases a with
            | srgb => exact absurd rfl hba
            | srgb_linear => exact hsl rfl
        | srgb_linear =>
            cases a with
            | srgb => exact hls rfl
            | srgb_linear => exact absurd rfl hba

theorem cacheInv_init (s : σ) : CacheInv (World.init s : World σ π) := by
  simp [CacheInv, World.init]

/-! ## The constructor from ICC bytes -/

/-- C2: for a colour space `space` with instance structure `self`, an error location
holding no error and any answers of the library, serialisation first queries the size
with a null destination and size `0`.  If the query fails it returns `NULL`, stores the
error and makes no further call.  Otherwise it makes the populate call on a block of
the reported size; if that fails it returns `NULL` and stores the error; if it succeeds
it returns a buffer whose size is the one the populate call reported, and the error
location still holds no error.  So a buffer is returned if and only if both calls
succeed. -/
theorem save_to_icc_profile_two_phase (E : Env σ π) (w : World σ π) (space : Nat)
    (self : GdkLcmsColorSpace π) (hself : w.deref space = some (Instance.lcms self)) :
    ∃ out err w1,
      gdk_lcms_color_space_save_to_icc_profile E w space (some none) = Except.ok (out, err, w1) ∧
      (out.isSome = true ↔
        (E.cmsSaveProfileToMem w.lcms self.lcms_profile none 0).1.ok = true ∧
        (E.cmsSaveProfileToMem (E.cmsSaveProfileToMem w.lcms self.lcms_profile none 0).2
          self.lcms_profile
          (g_malloc (E.cmsSaveProfileToMem w.lcms self.lcms_profile none 0).1.BytesNeeded)
          (E.cmsSaveProfileToMem w.lcms self.lcms_profile none 0).1.BytesNeeded).1.ok = true) ∧
      (((E.cmsSaveProfileToMem w.lcms self.lcms_profile none 0).1.ok = false ∧
        out = none ∧
        err = some (some { domain := G_IO_ERROR, code := G_IO_ERROR_FAILED,
                           message := E.gettext "Could not prepare ICC profile" }) ∧
        w1.calls = w.calls ++ [Call.cmsSaveProfileToMem self.lcms_profile none 0]) ∨
       ((E.cmsSaveProfileToMem w.lcms self.lcms_profile none 0).1.ok = true ∧
        (E.cmsSaveProfileToMem (E.cmsSaveProfileToMem w.lcms self.lcms_profile none 0).2
          self.lcms_profile
          (g_malloc (E.cmsSaveProfileToMem w.lcms self.lcms_profile none 0).1.BytesNeeded)
          (E.cmsSaveProfileToMem w.lcms self.lcms_profile none 0).1.BytesNeeded).1.ok = false ∧
        out = none ∧
        err = some (some { domain := G_IO_ERROR, code := G_IO_ERROR_FAILED,
                           message := E.gettext "Failed to save ICC profile" }) ∧
        w1.calls = w.calls ++
          [Call.cmsSaveProfileToMem self.lcms_profile none 0,
           Call.cmsSaveProfileToMem self.lcms_profile
             (g_malloc (E.cmsSaveProfileToMem w.lcms self.lcms_profile none 0).1.BytesNeeded)
             (E.cmsSaveProfileToMem w.lcms self.lcms_profile none 0).1.BytesNeeded]) ∨
       ((E.cmsSaveProfileToMem w.lcms self.lcms_profile none 0).1.ok = true ∧
        (E.cmsSaveProfileToMem (E.cmsSaveProfileToMem w.lcms self.lcms_profile none 0).2
          self.lcms_profile
          (g_malloc (E.cmsSaveProfileToMem w.lcms self.lcms_profile none 0).1.BytesNeeded)
          (E.cmsSaveProfileToMem w.lcms self.lcms_profile none 0).1.BytesNeeded).1.ok = true ∧
        (∃ B : GBytes, out = some B ∧
          B.size =
            (E.cmsSaveProfileToMem (E.cmsSaveProfileToMem w.lcms self.lcms_profile none 0).2
              self.lcms_profile
              (g_malloc (E.cmsSaveProfileToMem w.lcms self.lcms_profile none 0).1.BytesNeeded)
              (E.cmsSaveProfileToMem w.lcms self.lcms_profile none 0).1.BytesNeeded).1.BytesNeeded) ∧
        err = some none ∧
        w1.calls = w.calls ++
          [Call.cmsSaveProfileToMem self.lcms_profile none 0,
           Call.cmsSaveProfileToMem self.lcms_profile
             (g_malloc (E.cmsSaveProfileToMem w.lcms self.lcms_profile none 0).1.BytesNeeded)
             (E.cmsSaveProfileToMem w.lcms self.lcms_profile none 0).1.BytesNeeded])) := by
  have hcast : GDK_LCMS_COLOR_SPACE w space = Except.ok self := by
    simp [GDK_LCMS_COLOR_SPACE, hself]
  unfold gdk_lcms_color_space_save_to_icc_profile
  rw [hcast]
  simp only [World.cmsSaveProfileToMem]
  cases hq : (E.cmsSaveProfileToMem w.lcms self.lcms_profile none 0).1.ok
  · simp only [if_true]
    refine ⟨_, _, _, rfl, ?_⟩
    simp [g_set_error, World.warn]
  · cases hr : (E.cmsSaveProfileToMem (E.cmsSaveProfileToMem w.lcms self.lcms_profile none 0).2
        self.lcms_profile
        (g_malloc (E.cmsSaveProfileToMem w.lcms self.lcms_profile none 0).1.BytesNeeded)
        (E.cmsSaveProfileToMem w.lcms self.lcms_profile none 0).1.BytesNeeded).1.ok
    · simp only [if_true, if_false, Bool.true_eq_false]
      refine ⟨_, _, _, rfl, ?_⟩
      simp [g_set_error, World.warn]
    · simp only [if_false, Bool.true_eq_false]
      refine ⟨_, _, _, rfl, ?_⟩
      simp [g_bytes_new_take]

/-- Witness of C2: the LCMS colour space at address `1` of the example state is
serialised by the working library. -/
theorem save_to_icc_profile_two_phase_witness :
    Example.world.deref 1 = some (Instance.lcms { parent_instance := 0, lcms_profile := 7 }) ∧
    ∃ out err w1,
      gdk_lcms_color_space_save_to_icc_profile Example.lcms_ok Example.world 1 (some none) =
        Except.ok (out, err, w1) ∧ out.isSome = true :=
  ⟨rfl,
   match save_to_icc_profile_two_phase Example.lcms_ok Example.world 1
       { parent_instance := 0, lcms_profile := 7 } rfl with
   | ⟨out, err, w1, h, hiff, _⟩ => ⟨out, err, w1, h, hiff.mpr ⟨rfl, rfl⟩⟩⟩

/-! ## Format support -/

theorem gray_ne_rgb : cmsSigGrayData ≠ cmsSigRgbData := by decide

theorem cmyk_ne_rgb : cmsSigCmykData ≠ cmsSigRgbData := by decide

/-- C3: for a colour space `space` with instance structure `self` and every memory
format, `supports_format` returns true if and only if the library reports the
colour-space signature of `self`'s handle as RGB; it returns false when the signature is
gray or CMYK; and any two formats `f1`, `f2` give the same outcome. -/
theorem supports_format_iff_rgb (E : Env σ π) (w : World σ π) (space : Nat)
    (self : GdkLcmsColorSpace π) (format f1 f2 : GdkMemoryFormat)
    (hself : w.deref space = some (Instance.lcms self)) :
    ∃ b w1,
      gdk_lcms_color_space_supports_format E w space format = Except.ok (b, w1) ∧
      (b = true ↔ (E.cmsGetColorSpace w.lcms self.lcms_profile).1 = cmsSigRgbData) ∧
      ((E.cmsGetColorSpace w.lcms self.lcms_profile).1 = cmsSigGrayData → b = false) ∧
      ((E.cmsGetColorSpace w.lcms self.lcms_profile).1 = cmsSigCmykData → b = false) ∧
      w1.calls = w.calls ++ [Call.cmsGetColorSpace self.lcms_profile] ∧
      gdk_lcms_color_space_supports_format E w space f1 =
        gdk_lcms_color_space_supports_format E w space f2 := by
  have hcast : GDK_LCMS_COLOR_SPACE w space = Except.ok self := by
    simp [GDK_LCMS_COLOR_SPACE, hself]
  unfold gdk_lcms_color_space_supports_format
  rw [hcast]
  refine ⟨_, _, rfl, ?_, ?_, ?_, ?_, ?_⟩
  · exact beq_iff_eq
  · intro hg
    show ((E.cmsGetColorSpace w.lcms self.lcms_profile).1 == cmsSigRgbData) = false
    rw [hg]
    exact beq_eq_false_iff_ne.mpr gray_ne_rgb
  · intro hc
    show ((E.cmsGetColorSpace w.lcms self.lcms_profile).1 == cmsSigRgbData) = false
    rw [hc]
    exact beq_eq_false_iff_ne.mpr cmyk_ne_rgb
  · rfl
  · rfl

/-- Witness of C3: the LCMS colour space at address `1` of the example state, whose
profile the working library reports as RGB, supports the formats `0` and `5`. -/
theorem supports_format_iff_rgb_witness :
    Example.world.deref 1 = some (Instance.lcms { parent_instance := 0, lcms_profile := 7 }) ∧
    ∃ b w1,
      gdk_lcms_color_space_supports_format Example.lcms_ok Example.world 1 0 =
        Except.ok (b, w1) ∧ b = true :=
  ⟨rfl,
   match supports_format_iff_rgb Example.lcms_ok Example.world 1
       { parent_instance := 0, lcms_profile := 7 } 0 0 5 rfl with
   | ⟨b, w1, h, hiff, _⟩ => ⟨b, w1, h, hiff.mpr rfl⟩⟩

/-! ## The handle accessor -/

/-- C7: the accessor applied to the colour space constructed from handle `p` returns
`p` (and changes nothing); applied to a pointer `other` that is not an instance of the
LCMS class (an instance of another class, which has no handle field, or `NULL`) it
returns `NULL`. -/
theorem get_lcms_profile_new_from_lcms_profile (E : Env σ π) (w : World σ π)
    (p : cmsHPROFILE) (w2 : World σ π) (other : Nat) :
    gdk_lcms_color_space_get_lcms_profile
        (gdk_lcms_color_space_new_from_lcms_profile E w p).2
        (gdk_lcms_color_space_new_from_lcms_profile E w p).1 =
      (p, (gdk_lcms_color_space_new_from_lcms_profile E w p).2) ∧
    (GDK_IS_LCMS_COLOR_SPACE w2 other = false →
      gdk_lcms_color_space_get_lcms_profile w2 other = (0, w2.critical)) := by
  constructor
  · simp [new_from_lcms_profile_eq, gdk_lcms_color_space_get_lcms_profile, World.deref]
  · intro hk
    unfold GDK_IS_LCMS_COLOR_SPACE at hk
    unfold gdk_lcms_color_space_get_lcms_profile
    split
    · rename_i s hs
      simp [hs] at hk
    · rfl

/-- Witness of C7: address `2` of the example state holds a colour space of another
class. -/
theorem get_lcms_profile_new_from_lcms_profile_witness :
    GDK_IS_LCMS_COLOR_SPACE Example.world 2 = false ∧
    gdk_lcms_color_space_get_lcms_profile Example.world 2 = (0, Example.world.critical) :=
  ⟨rfl, (get_lcms_profile_new_from_lcms_profile Example.lcms_ok Example.world 9
    Example.world 2).2 rfl⟩

/-! ## Disposal -/

/-- C4: for a colour space `object` with instance structure `self`, `dispose` returns;
it makes exactly one close call, on the handle, when the handle is not null, and no
call at all when it is null; afterwards the handle field is null.  A second `dispose`
returns as well, makes no call, leaves the library state and the handle field as they
are, and, if the parent class's dispose is idempotent, leaves the whole state as it
is. -/
theorem dispose_releases_once (E : Env σ π) (w : World σ π) (object : Nat)
    (self : GdkLcmsColorSpace π) (hself : w.deref object = some (Instance.lcms self)) :
    ∃ w1 w2,
      gdk_lcms_color_space_dispose E w object = Except.ok w1 ∧
      gdk_lcms_color_space_dispose E w1 object = Except.ok w2 ∧
      w1.calls = w.calls ++
        (if self.lcms_profile = 0 then [] else [Call.cmsCloseProfile self.lcms_profile]) ∧
      w1.deref object = some (Instance.lcms
        { parent_instance := E.parent_dispose self.parent_instance, lcms_profile := 0 }) ∧
      w2.calls = w1.calls ∧
      w2.lcms = w1.lcms ∧
      w2.deref object = some (Instance.lcms
        { parent_instance := E.parent_dispose (E.parent_dispose self.parent_instance),
          lcms_profile := 0 }) ∧
      ((∀ q, E.parent_dispose (E.parent_dispose q) = E.parent_dispose q) → w2 = w1) := by
  have h1 := dispose_eq E w object self hself
  have hd1 : World.deref
      { w with
        lcms := if self.lcms_profile = 0 then w.lcms
                else (E.cmsCloseProfile w.lcms self.lcms_profile).2,
        calls := if self.lcms_profile = 0 then w.calls
                 else w.calls ++ [Call.cmsCloseProfile self.lcms_profile],
        heap := w.heap.set (object - 1)
          (Instance.lcms { parent_instance := E.parent_dispose self.parent_instance,
                           lcms_profile := 0 }) } object =
      some (Instance.lcms { parent_instance := E.parent_dispose self.parent_instance,
                            lcms_profile := 0 }) :=
    deref_of_heap_set w _ object _ _ hself rfl
  have h2 := dispose_eq E _ object _ hd1
  refine ⟨_, _, h1, h2, ?_, hd1, ?_, ?_, ?_, ?_⟩
  · by_cases h0 : self.lcms_profile = 0 <;> simp [h0]
  · simp
  · simp
  · exact deref_of_heap_set _ _ object _ _ hd1 rfl
  · intro hidem
    simp [List.set_set, hidem]

/-- Witness of C4: the colour space at address `1` of the example state holds handle
`7`; the parent class of the example disposes idempotently. -/
theorem dispose_releases_once_witness :
    Example.world.deref 1 = some (Instance.lcms { parent_instance := 0, lcms_profile := 7 }) ∧
    (∀ q, Example.lcms_ok.parent_dispose (Example.lcms_ok.parent_dispose q) =
      Example.lcms_ok.parent_dispose q) ∧
    ∃ w1 w2,
      gdk_lcms_color_space_dispose Example.lcms_ok Example.world 1 = Except.ok w1 ∧
      gdk_lcms_color_space_dispose Example.lcms_ok w1 1 = Except.ok w2 ∧
      w1.calls = [Call.cmsCloseProfile 7] ∧ w2 = w1 :=
  ⟨rfl, fun _ => rfl,
   match dispose_releases_once Example.lcms_ok Example.world 1
       { parent_instance := 0, lcms_profile := 7 } rfl with
   | ⟨w1, w2, h1, h2, hc, _, _, _, _, hsame⟩ => ⟨w1, w2, h1, h2, hc, hsame (fun _ => rfl)⟩⟩

/-! ## The singletons -/

/-- C5: every finite sequence of calls of the two singleton accessors from the initial
process state runs to the end.  Every call of an accessor returns the same pointer,
the one its cache holds at the end, which is not null and points to a live LCMS colour
space; the two accessors return different instances.  The library's sRGB builder has
been invoked exactly once if `gdk_color_space_get_srgb` was called at all, the RGB
builder exactly once if `gdk_color_space_get_srgb_linear` was called at all, and no
profile has been closed. -/
theorem singletons_built_once (E : Env σ π) (s : σ) (seq : List Accessor) :
    ∃ rs w,
      Accessor.run E (World.init s) seq = Except.ok (rs, w) ∧
      rs = seq.map (Accessor.cache w) ∧
      (∀ a ∈ seq, Accessor.cache w a ≠ 0 ∧
        GDK_IS_LCMS_COLOR_SPACE w (Accessor.cache w a) = true) ∧
      (Accessor.srgb ∈ seq → Accessor.srgb_linear ∈ seq →
        w.srgb_color_space ≠ w.srgb_linear_color_space) ∧
      w.calls.count Call.cmsCreate_sRGBProfile = (if Accessor.srgb ∈ seq then 1 else 0) ∧
      w.calls.countP Call.is_cmsCreateRGBProfile =
        (if Accessor.srgb_linear ∈ seq then 1 else 0) ∧
      w.calls.countP Call.is_cmsCloseProfile = 0 := by
  obtain ⟨rs, w, hrun, hinv, hrs, hnz, _, hout⟩ :=
    run_preserves E seq (World.init s) (cacheInv_init s)
  obtain ⟨hs, hl, hne, hcs, hcl, hcc⟩ := hinv
  refine ⟨rs, w, hrun, hrs, ?_, ?_, ?_, ?_, hcc⟩
  · intro a ha
    refine ⟨hnz a ha, ?_⟩
    cases a with
    | srgb => exact hs (hnz _ ha)
    | srgb_linear => exact hl (hnz _ ha)
  · intro hsm _
    exact hne (hnz _ hsm)
  · rw [hcs]
    by_cases hm : Accessor.srgb ∈ seq
    · have := hnz _ hm
      simp only [Accessor.cache] at this
      simp [hm, this]
    · have := hout _ hm
      simp only [Accessor.cache, World.init] at this
      simp [hm, this]
  · rw [hcl]
    by_cases hm : Accessor.srgb_linear ∈ seq
    · have := hnz _ hm
      simp only [Accessor.cache] at this
      simp [hm, this]
    · have := hout _ hm
      simp only [Accessor.cache, World.init] at this
      simp [hm, this]

/-- Witness of C5: the sequence sRGB, linear sRGB, sRGB with the working library
returns the addresses `1`, `2`, `1`. -/
theorem singletons_built_once_witness :
    Accessor.srgb ∈ [Accessor.srgb, Accessor.srgb_linear, Accessor.srgb] ∧
    Accessor.srgb_linear ∈ [Accessor.srgb, Accessor.srgb_linear, Accessor.srgb] ∧
    ∃ rs w,
      Accessor.run Example.lcms_ok (World.init 0)
        [Accessor.srgb, Accessor.srgb_linear, Accessor.srgb] = Except.ok (rs, w) ∧
      rs = [w.srgb_color_space, w.srgb_linear_color_space, w.srgb_color_space] ∧
      w.srgb_color_space ≠ w.srgb_linear_color_space ∧
      w.calls.count Call.cmsCreate_sRGBProfile = 1 :=
  ⟨by decide, by decide,
   match singletons_built_once Example.lcms_ok 0
       [Accessor.srgb, Accessor.srgb_linear, Accessor.srgb] with
   | ⟨rs, w, hrun, hrs, _, hne, hcs, _⟩ =>
       ⟨rs, w, hrun, hrs, hne (by decide) (by decide), hcs⟩⟩

/-- C10: the first call of `gdk_color_space_get_srgb_linear` (its cache is still zero)
returns a pointer `p` and has made exactly these calls, in this order: build a gamma
curve with gamma 1.0 in the global context; create an RGB profile from the white point
(0.3127, 0.3290, 1.0), the primaries (0.64, 0.33, 1.0), (0.30, 0.60, 1.0),
(0.15, 0.06, 1.0) and that curve three times; free that curve; allocate the colour
space.  The colour space at `p` holds the handle the profile creation returned. -/
theorem get_srgb_linear_first_call (E : Env σ π) (w : World σ π)
    (h : w.srgb_linear_color_space = 0) :
    ∃ p w1,
      gdk_color_space_get_srgb_linear E w = Except.ok (p, w1) ∧
      w1.calls = w.calls ++
        [Call.cmsBuildGamma 0 1.0,
         Call.cmsCreateRGBProfile
           { x := 0.3127, y := 0.3290, Y := 1.0 }
           { Red := { x := 0.64, y := 0.33, Y := 1.0 },
             Green := { x := 0.30, y := 0.60, Y := 1.0 },
             Blue := { x := 0.15, y := 0.06, Y := 1.0 } }
           [(E.cmsBuildGamma w.lcms 0 1.0).1, (E.cmsBuildGamma w.lcms 0 1.0).1,
            (E.cmsBuildGamma w.lcms 0 1.0).1],
         Call.cmsFreeToneCurve (E.cmsBuildGamma w.lcms 0 1.0).1,
         Call.g_object_new] ∧
      w1.deref p = some (Instance.lcms
        { parent_instance := E.parent_init,
          lcms_profile :=
            (E.cmsCreateRGBProfile (E.cmsBuildGamma w.lcms 0 1.0).2
              { x := 0.3127, y := 0.3290, Y := 1.0 }
              { Red := { x := 0.64, y := 0.33, Y := 1.0 },
                Green := { x := 0.30, y := 0.60, Y := 1.0 },
                Blue := { x := 0.15, y := 0.06, Y := 1.0 } }
              [(E.cmsBuildGamma w.lcms 0 1.0).1, (E.cmsBuildGamma w.lcms 0 1.0).1,
               (E.cmsBuildGamma w.lcms 0 1.0).1]).1 }) ∧
      w1.srgb_linear_color_space = p := by
  have e1 : (0.6400 : ℚ) = 0.64 := by norm_num
  have e2 : (0.3300 : ℚ) = 0.33 := by norm_num
  have e3 : (0.3000 : ℚ) = 0.30 := by norm_num
  have e4 : (0.6000 : ℚ) = 0.60 := by norm_num
  have e5 : (0.1500 : ℚ) = 0.15 := by norm_num
  have e6 : (0.0600 : ℚ) = 0.06 := by norm_num
  refine ⟨_, _, get_srgb_linear_first E w h, ?_, ?_, rfl⟩
  · simp only [e1, e2, e3, e4, e5, e6]
  · simp only [e1, e2, e3, e4, e5, e6]
    simp [World.deref]

/-- Witness of C10: the example state has not yet initialised the linear sRGB
singleton. -/
theorem get_srgb_linear_first_call_witness :
    Example.world.srgb_linear_color_space = 0 ∧
    ∃ p w1,
      gdk_color_space_get_srgb_linear Example.lcms_ok Example.world = Except.ok (p, w1) ∧
      w1.srgb_linear_color_space = p :=
  ⟨rfl,
   match get_srgb_linear_first_call Example.lcms_ok Example.world rfl with
   | ⟨p, w1, hrun, _, _, hp⟩ => ⟨p, w1, hrun, hp⟩⟩

/-! ## The component count -/

/-- C9: for every state and every pointer `space`, whatever it points to,
`get_n_components` returns 3 and leaves the state, in particular the record of library
calls, as it is; and the linear sRGB singleton, obtained from the initial state, has 3
components. -/
theorem get_n_components_eq_three (E : Env σ π) (w : World σ π) (space : Nat) (s : σ) :
    gdk_lcms_color_space_get_n_components w space = (3, w) ∧
    ∃ p w1,
      gdk_color_space_get_srgb_linear E (World.init s) = Except.ok (p, w1) ∧
      (gdk_lcms_color_space_get_n_components w1 p).1 = 3 :=
  ⟨rfl, _, _, get_srgb_linear_first E (World.init s) rfl, rfl⟩

/-! ## A library that cannot build the canonical profiles -/

/-- C6, the code at the failing input: with a library whose profile builders return a
null handle, both singleton accessors return from the initial state, without a failed
assertion, a colour space whose handle is null. -/
theorem singleton_with_null_handle :
    (∃ p w, gdk_color_space_get_srgb Example.lcms_no_builtin (World.init 0) = Except.ok (p, w) ∧
      p ≠ 0 ∧ GDK_IS_LCMS_COLOR_SPACE w p = true ∧
      gdk_lcms_color_space_get_lcms_profile w p = (0, w)) ∧
    (∃ p w, gdk_color_space_get_srgb_linear Example.lcms_no_builtin (World.init 0) =
        Except.ok (p, w) ∧
      p ≠ 0 ∧ GDK_IS_LCMS_COLOR_SPACE w p = true ∧
      gdk_lcms_color_space_get_lcms_profile w p = (0, w)) :=
  ⟨⟨_, _, get_srgb_first Example.lcms_no_builtin (World.init 0) rfl, by decide, rfl, rfl⟩,
   ⟨_, _, get_srgb_linear_first Example.lcms_no_builtin (World.init 0) rfl, by decide, rfl,
    rfl⟩⟩

end Gdk
